import Mathlib

/-!
Verification of the video_quality_checker repository (src/main.py) against its
natural-language specification.

The two operations under study are:
  * get_video_properties (src/main.py lines 13-73): run ffprobe, parse its JSON
    stdout, and derive a flat property record from the first video stream;
  * convert_video_to_requirements (src/main.py lines 75-123): build an ffmpeg
    command line and run it, reporting (printing) failures.

Shallow embedding conventions:
  * Parsed JSON is modelled by the inductive type Json below.  A Python dict
    produced by json.loads is represented as a key/value list with unique keys,
    so lookup by first match models dict indexing.
  * The outcome of a subprocess.run call is modelled explicitly: for the probe,
    ProbeResult carries the exit code and the result of json.loads on the
    captured stdout (none = stdout was not valid JSON, i.e. json.loads raised
    JSONDecodeError); for the converter, SpawnOutcome distinguishes a completed
    process (exit code, stdout, stderr) from an OSError raised while spawning
    (FileNotFoundError, PermissionError), which subprocess.run can raise.
  * Python float division of two ints (line 41) is modelled as CPython
    computes it: the IEEE-754 binary64 value nearest the exact quotient
    (ties to even, subnormal spacing below the normal range, OverflowError
    once the rounded magnitude reaches 2^1024), represented here by its exact
    rational value.  The decimal float() parses feeding the aspect-ratio
    division of line 44 are modelled by their exact decimal values, an
    abstraction no claim depends on.  The spec's error names (ProbeError,
    MissingStreamError, MalformedFieldError) classify the Python exceptions
    raised at each source location, as §7 of the spec defines them.
  * Python int(...) / float(...) string parsing is modelled for the ASCII
    sign-and-digits forms (with surrounding whitespace); exotic acceptances of
    CPython (underscore digit separators, unicode digits, exponents, inf/nan)
    are outside the model.
-/

/-- Parsed JSON values, the result of json.loads on the probe's stdout.
An object is a key/value list with unique keys (first-match lookup models
Python dict indexing). -/
inductive Json where
  | null
  | bool (b : Bool)
  | num (n : Int)
  | str (s : String)
  | arr (elems : List Json)
  | obj (entries : List (String × Json))

/-- Failure classification for the property extractor, following the spec's
error taxonomy (§7).  Each constructor is the spec's name for the Python
exception raised at the corresponding site of get_video_properties:
probeError = json.JSONDecodeError from json.loads (line 34);
missingStreamError = KeyError / IndexError selecting streams[0] (line 37);
malformedFieldError = KeyError / ValueError / AttributeError / IndexError
while reading or parsing a stream field; zeroDivisionError = the Python
ZeroDivisionError a zero denominator raises (lines 41 and 44), a failure mode
the spec's taxonomy does not name; overflowError = the Python OverflowError
float division raises when the correctly rounded quotient reaches 2^1024
(line 41), likewise unnamed by the spec's taxonomy. -/
inductive VQError where
  | probeError
  | missingStreamError
  | malformedFieldError
  | zeroDivisionError
  | overflowError
deriving DecidableEq

/-- Python dict lookup on a parsed JSON object, d.get(k) / d[k] probing. -/
def jLookup (kvs : List (String × Json)) (k : String) : Option Json :=
  match kvs.find? (fun p => p.1 == k) with
  | some p => some p.2
  | none => none

/-- Python d.get(k, default). -/
def jGetD (kvs : List (String × Json)) (k : String) (d : Json) : Json :=
  (jLookup kvs k).getD d

/-- Python equality test of an arbitrary JSON value against a string literal:
true exactly when the value is that string (values of other types compare
unequal to a str in Python, without error). -/
def jIsStr (v : Json) (s : String) : Bool :=
  match v with
  | Json.str t => t == s
  | _ => false

/-- Python str.split(sep) for a one-character separator, on the character
list of the string: always returns at least one (possibly empty) piece. -/
def splitChar (c : Char) : List Char → List (List Char)
  | [] => [[]]
  | a :: t =>
      match splitChar c t, a == c with
      | r, true => [] :: r
      | [], false => [[a]]
      | h :: r, false => (a :: h) :: r

/-- Python s.split(c) for a one-character separator c. -/
def pySplit (s : String) (c : Char) : List String :=
  (splitChar c s.data).map (fun cs => String.mk cs)

/-- Numeric value of an ASCII digit character. -/
def digitVal (c : Char) : Nat := c.toNat - 48

/-- Value of a digit string read in base 10. -/
def digitsVal (cs : List Char) : Nat :=
  cs.foldl (fun a c => 10 * a + digitVal c) 0

/-- All characters are ASCII digits. -/
def allDigits (cs : List Char) : Bool := cs.all (fun c => c.isDigit)

/-- Python str.strip(): drop whitespace from both ends. -/
def trimChars (cs : List Char) : List Char :=
  ((cs.dropWhile Char.isWhitespace).reverse.dropWhile Char.isWhitespace).reverse

/-- A non-empty all-digit character list read as a natural number. -/
def natChars? (cs : List Char) : Option Nat :=
  match cs with
  | [] => none
  | _ => if allDigits cs then some (digitsVal cs) else none

/-- Python int(s) on a string: optional surrounding whitespace, optional sign,
then a non-empty digit run; none models the ValueError int raises otherwise. -/
def pyInt? (s : String) : Option Int :=
  match trimChars s.data with
  | '+' :: rest => (natChars? rest).map (fun n => (n : Int))
  | '-' :: rest => (natChars? rest).map (fun n => -(n : Int))
  | cs => (natChars? cs).map (fun n => (n : Int))

/-- Python float(s) on a decimal string, as an exact numerator/denominator
pair (the denominator is the power of ten of the fractional part): optional
whitespace and sign, then digits with an optional decimal point ("1", "1.5",
"1.", ".5"); none models the ValueError float raises otherwise.  The parsed
float is zero exactly when the numerator is zero. -/
def pyFloatParts? (s : String) : Option (Int × Nat) :=
  let body := trimChars s.data
  let signed : Int × List Char :=
    match body with
    | '+' :: rest => (1, rest)
    | '-' :: rest => (-1, rest)
    | cs => (1, cs)
  match splitChar '.' signed.2 with
  | [ip] =>
      match ip with
      | [] => none
      | _ => if allDigits ip then some (signed.1 * (digitsVal ip : Int), 1) else none
  | [ip, fp] =>
      match ip, fp with
      | [], [] => none
      | _, _ =>
          if allDigits ip && allDigits fp then
            some (signed.1 * ((digitsVal ip * 10 ^ fp.length + digitsVal fp : Nat) : Int),
                  10 ^ fp.length)
          else none
  | _ => none

/-- The rational value of a parsed float (numerator over denominator). -/
def partsToQ (p : Int × Nat) : ℚ := (p.1 : ℚ) / (p.2 : ℚ)

/-- Line 40 of src/main.py:
frame_rate_num, frame_rate_den = map(int, video_stream['r_frame_rate'].split('/')).
KeyError when the field is absent, AttributeError when it is not a string,
ValueError when the split does not give exactly two int-parsable pieces: all
classified MalformedFieldError by the spec's taxonomy. -/
def parseFrameRateField (kvs : List (String × Json)) : Except VQError (Int × Int) :=
  match jLookup kvs "r_frame_rate" with
  | none => Except.error VQError.malformedFieldError
  | some (Json.str s) =>
      match pySplit s '/' with
      | [a, b] =>
          match pyInt? a, pyInt? b with
          | some n, some d => Except.ok (n, d)
          | _, _ => Except.error VQError.malformedFieldError
      | _ => Except.error VQError.malformedFieldError
  | some _ => Except.error VQError.malformedFieldError

/-- Number of binary digits of a natural number (0 for 0), computed with a
fuel argument so that it reduces by iota in the kernel; fuel n suffices since
the bit length of n never exceeds n. -/
def bitlenAux : Nat → Nat → Nat
  | 0, _ => 0
  | fuel + 1, n => if n = 0 then 0 else bitlenAux fuel (n / 2) + 1

/-- Number of binary digits of a natural number (0 for 0). -/
def bitlen (n : Nat) : Nat := bitlenAux n n

/-- Round the fraction N/D (D > 0) to the nearest integer, ties to even: the
rounding rule of IEEE-754 round-to-nearest. -/
def rne (N D : Nat) : Nat :=
  let q := N / D
  let r := N % D
  if 2 * r < D then q
  else if D < 2 * r then q + 1
  else if q % 2 = 0 then q else q + 1

/-- CPython true division of two ints (d ≠ 0) as the IEEE-754 binary64
double nearest the exact quotient n/d, returned as a dyadic pair (m, e) of
value m * 2^e: the scale 2^(-k) is the spacing of doubles in the binade of
the quotient (clamped to the subnormal spacing 2^(-1074)), and the mantissa
is the quotient rounded to the nearest multiple of that spacing, ties to
even.  none models the OverflowError CPython raises when the rounded
magnitude reaches 2^1024. -/
def floatDivParts (n d : Int) : Option (Int × Int) :=
  if n = 0 then some (0, 0) else
  let a := n.natAbs
  let b := d.natAbs
  let sgn : Int := if (n < 0 ∧ 0 < d) ∨ (0 < n ∧ d < 0) then -1 else 1
  let k0 : Int := 52 + (bitlen b : Int) - (bitlen a : Int)
  let f0 : Nat := if 0 ≤ k0 then a * 2 ^ k0.toNat / b else a / (b * 2 ^ ((-k0).toNat))
  let k1 : Int := if f0 < 2 ^ 52 then k0 + 1 else k0
  let k : Int := if 1074 < k1 then 1074 else k1
  let m : Nat := if 0 ≤ k then rne (a * 2 ^ k.toNat) b else rne a (b * 2 ^ ((-k).toNat))
  if k < 0 ∧ 2 ^ 1024 ≤ m * 2 ^ ((-k).toNat) then none
  else some (sgn * (m : Int), -k)

/-- The exact rational value of a dyadic pair (m, e): m * 2^e. -/
def dyadicToQ (m e : Int) : ℚ :=
  if 0 ≤ e then (m : ℚ) * (2 : ℚ) ^ e.toNat
  else (m : ℚ) / (2 : ℚ) ^ ((-e).toNat)

/-- Line 41 of src/main.py: frame_rate = frame_rate_num / frame_rate_den.
CPython raises ZeroDivisionError on a zero denominator and OverflowError on a
quotient too large for a float; otherwise the result is the correctly rounded
binary64 double of the quotient, carried as its exact rational value. -/
def pyDiv (n d : Int) : Except VQError ℚ :=
  if d = 0 then Except.error VQError.zeroDivisionError
  else
    match floatDivParts n d with
    | some p => Except.ok (dyadicToQ p.1 p.2)
    | none => Except.error VQError.overflowError

/-- Line 44 of src/main.py: display_aspect_ratio from the "W:H" string field,
float components divided exactly in ℚ.  Absent field, non-string value, a
missing second component or unparsable floats are MalformedFieldError; a zero
second component raises ZeroDivisionError. -/
def parseDarField (kvs : List (String × Json)) : Except VQError ℚ :=
  match jLookup kvs "display_aspect_ratio" with
  | none => Except.error VQError.malformedFieldError
  | some (Json.str s) =>
      match pySplit s ':' with
      | a :: b :: _ =>
          match pyFloatParts? a, pyFloatParts? b with
          | some x, some y =>
              if y.1 = 0 then Except.error VQError.zeroDivisionError
              else Except.ok (partsToQ x / partsToQ y)
          | _, _ => Except.error VQError.malformedFieldError
      | _ => Except.error VQError.malformedFieldError
  | some _ => Except.error VQError.malformedFieldError

/-- Lines 47-51 of src/main.py: GOP extraction.  gop_m = gop_n = 0 unless the
stream has a tags object holding a gop_size entry; when it does, the value is
a comma-separated pair of key=value tokens whose values are parsed with int().
A tags value that is not an object is treated as not holding the entry (the
conflated off-spec Python corner: membership tests on non-dict values). -/
def extractGop (kvs : List (String × Json)) : Except VQError (Int × Int) :=
  match jLookup kvs "tags" with
  | some (Json.obj tags) =>
      match jLookup tags "gop_size" with
      | some (Json.str s) =>
          match pySplit s ',' with
          | p0 :: p1 :: _ =>
              match pySplit p0 '=' with
              | _ :: ms :: _ =>
                  match pyInt? ms with
                  | some m =>
                      match pySplit p1 '=' with
                      | _ :: ns :: _ =>
                          match pyInt? ns with
                          | some n => Except.ok (m, n)
                          | none => Except.error VQError.malformedFieldError
                      | _ => Except.error VQError.malformedFieldError
                  | none => Except.error VQError.malformedFieldError
              | _ => Except.error VQError.malformedFieldError
          | _ => Except.error VQError.malformedFieldError
      | some _ => Except.error VQError.malformedFieldError
      | none => Except.ok (0, 0)
  | some _ => Except.ok (0, 0)
  | none => Except.ok (0, 0)

/-- A required stream field: video_stream[k], KeyError when absent (classified
MalformedFieldError: an expected sub-field is missing). -/
def reqJson (kvs : List (String × Json)) (k : String) : Except VQError Json :=
  match jLookup kvs k with
  | some v => Except.ok v
  | none => Except.error VQError.malformedFieldError

/-- Python int(v) on a parsed JSON value: numbers pass through, booleans map
to 1/0, strings are parsed, anything else raises (TypeError / ValueError),
classified MalformedFieldError. -/
def pyIntOfJson (v : Json) : Except VQError Int :=
  match v with
  | Json.num n => Except.ok n
  | Json.bool b => Except.ok (if b then 1 else 0)
  | Json.str s =>
      match pyInt? s with
      | some n => Except.ok n
      | none => Except.error VQError.malformedFieldError
  | _ => Except.error VQError.malformedFieldError

/-- Line 66 of src/main.py:
'interlaced' if video_stream.get('field_order', 'progressive') != 'progressive'
else 'progressive'. -/
def scanTypeOf (kvs : List (String × Json)) : String :=
  if jIsStr (jGetD kvs "field_order" (Json.str "progressive")) "progressive"
  then "progressive" else "interlaced"

/-- Line 67 of src/main.py:
'TFF' if video_stream.get('field_order', 'bb') == 'tt' else
'BFF' if video_stream.get('field_order', 'tt') == 'bb' else 'Progressive'
(the two distinct defaults are the source's). -/
def scanOrderOf (kvs : List (String × Json)) : String :=
  if jIsStr (jGetD kvs "field_order" (Json.str "bb")) "tt" then "TFF"
  else if jIsStr (jGetD kvs "field_order" (Json.str "tt")) "bb" then "BFF"
  else "Progressive"

/-- The fallible stream accesses of lines 44-65 of src/main.py, in source
evaluation order: display_aspect_ratio (line 44), GOP (47-51), then the
fallible entries of the dict literal: codec_name (54), level (55),
int(width) (58), int(height) (59), int of bit_rate (60), int of
bits_per_raw_sample (65). -/
structure StreamFallibles where
  dar : ℚ
  gop : Int × Int
  codecName : Json
  formatLevel : Json
  widthVal : Int
  heightVal : Int
  bitRateVal : Int
  bitDepthVal : Int

/-- Sequencing of the fallible accesses of lines 44-65, in source order. -/
def fallibleFields (kvs : List (String × Json)) : Except VQError StreamFallibles := do
  let dar ← parseDarField kvs
  let gop ← extractGop kvs
  let cn ← reqJson kvs "codec_name"
  let lv ← reqJson kvs "level"
  let wv ← reqJson kvs "width"
  let w ← pyIntOfJson wv
  let hv ← reqJson kvs "height"
  let h ← pyIntOfJson hv
  let br ← pyIntOfJson (jGetD kvs "bit_rate" (Json.str "0"))
  let bd ← pyIntOfJson (jGetD kvs "bits_per_raw_sample" (Json.str "8"))
  Except.ok { dar := dar, gop := gop, codecName := cn, formatLevel := lv,
              widthVal := w, heightVal := h, bitRateVal := br, bitDepthVal := bd }

/-- The video_properties record built at lines 53-71 of src/main.py.  Fields
the source stores unconverted keep the raw Json value; int-converted fields
are Int; the two exact quotients are ℚ. -/
structure VideoProperties where
  format_name : Json
  format_level : Json
  codec_name : Json
  format_profile : Json
  width : Int
  height : Int
  bit_rate : Int
  frame_rate : ℚ
  display_aspect_ratio : ℚ
  color_space : Json
  chroma_subsampling : Json
  bit_depth : Int
  scan_type : String
  scan_order : String
  gop_m : Int
  gop_n : Int

/-- Lines 39-73 of src/main.py applied to the selected stream object: frame
rate first (lines 40-41), then the remaining fallible accesses, then the
record assembly of lines 53-71. -/
def getStreamProps (kvs : List (String × Json)) : Except VQError VideoProperties := do
  let nd ← parseFrameRateField kvs
  let fr ← pyDiv nd.1 nd.2
  Except.map (fun x =>
    { format_name := x.codecName
      format_level := x.formatLevel
      codec_name := x.codecName
      format_profile := jGetD kvs "profile" (Json.str "")
      width := x.widthVal
      height := x.heightVal
      bit_rate := x.bitRateVal
      frame_rate := fr
      display_aspect_ratio := x.dar
      color_space := jGetD kvs "color_space" (Json.str "")
      chroma_subsampling := jGetD kvs "pix_fmt" (Json.str "")
      bit_depth := x.bitDepthVal
      scan_type := scanTypeOf kvs
      scan_order := scanOrderOf kvs
      gop_m := x.gop.1
      gop_n := x.gop.2 }) (fallibleFields kvs)

/-- Line 37 of src/main.py: video_stream = video_info['streams'][0].
KeyError when 'streams' is absent and IndexError when the array is empty, both
MissingStreamError in the spec's taxonomy; the off-spec Python corners
(subscripting a non-dict top level or a non-array streams value, TypeError)
are conflated into the same classification for this site. -/
def selectStream (info : Json) : Except VQError Json :=
  match info with
  | Json.obj kvs =>
      match jLookup kvs "streams" with
      | some (Json.arr (s :: _)) => Except.ok s
      | some (Json.arr []) => Except.error VQError.missingStreamError
      | some _ => Except.error VQError.missingStreamError
      | none => Except.error VQError.missingStreamError
  | _ => Except.error VQError.missingStreamError

/-- Lines 37-73 of src/main.py on the parsed probe JSON.  A selected stream
that is not an object makes the first field access (line 40) raise TypeError,
classified MalformedFieldError with the other shape errors of that site. -/
def get_video_properties (info : Json) : Except VQError VideoProperties := do
  let s ← selectStream info
  match s with
  | Json.obj kvs => getStreamProps kvs
  | _ => Except.error VQError.malformedFieldError

/-- The observable outcome of the ffprobe subprocess.run call of line 33 of
src/main.py: the exit code and the result of json.loads on the captured
stdout (none = json.loads raised JSONDecodeError, classified ProbeError). -/
structure ProbeResult where
  exitCode : Int
  stdout : Option Json
  stderr : String

/-- Lines 33-73 of src/main.py: json.loads on the captured stdout (line 34,
the exit code of the probe process is never consulted by the source), then
stream selection and property derivation. -/
def inspect (r : ProbeResult) : Except VQError VideoProperties :=
  match r.stdout with
  | none => Except.error VQError.probeError
  | some j => get_video_properties j

/-- The outcome of the ffmpeg subprocess.run call of line 117 of src/main.py:
either the process ran to completion (exit code, stdout, stderr) or spawning
it raised an OSError (FileNotFoundError, PermissionError). -/
inductive SpawnOutcome where
  | ran (exitCode : Int) (stdout stderr : String)
  | spawnFailure (msg : String)

/-- What convert_video_to_requirements is observed to do: print a success
message, print an error message (the except branch of line 122-123), or let
an exception escape to the caller. -/
inductive ConvertResult where
  | reportedSuccess (msg : String)
  | reportedError (msg : String)
  | raisedOSError (msg : String)

/-- Lines 89-113 of src/main.py: the ffmpeg argument list, with the
-pix_fmt nv12 pair appended exactly when the video codec is the literal
'h264_videotoolbox', and the output path appended last. -/
def convertCommand (input_video_path output_video_path video_codec resolution
    bitrate audio_codec : String) : List String :=
  (["ffmpeg",
    "-i", input_video_path,
    "-c:v", video_codec,
    "-profile:v", "4:2:2",
    "-g", "12",
    "-b:v", bitrate,
    "-minrate", bitrate,
    "-maxrate", bitrate,
    "-bufsize", bitrate,
    "-vf", "scale=" ++ resolution ++ ",setfield=mode=tff",
    "-aspect", "16:9",
    "-r", "25",
    "-c:a", audio_codec,
    "-ar", "48k",
    "-ac", "2",
    "-b:a", "1536k"]
   ++ (if video_codec = "h264_videotoolbox" then ["-pix_fmt", "nv12"] else [])
   ++ [output_video_path])

/-- Lines 116-123 of src/main.py.  On non-zero exit the source raises
RuntimeError('ffmpeg conversion failed: ' + stderr), which its own except
clause catches and prints as 'Error during conversion: ' + message.  The
except clause lists only RuntimeError and subprocess.CalledProcessError, so
an OSError raised while spawning escapes to the caller. -/
def runConvert (o : SpawnOutcome) : ConvertResult :=
  match o with
  | SpawnOutcome.ran code _ se =>
      if code ≠ 0 then
        ConvertResult.reportedError
          ("Error during conversion: " ++ ("ffmpeg conversion failed: " ++ se))
      else
        ConvertResult.reportedSuccess "Video conversion completed successfully."
  | SpawnOutcome.spawnFailure msg => ConvertResult.raisedOSError msg

/-- Lines 75-123 of src/main.py: build the command, run the external process
(modelled by the injected runProcess), and handle the outcome. -/
def convert_video_to_requirements (runProcess : List String → SpawnOutcome)
    (input_video_path output_video_path video_codec resolution
     bitrate audio_codec : String) : ConvertResult :=
  runConvert (runProcess (convertCommand input_video_path output_video_path
    video_codec resolution bitrate audio_codec))

/-- hay contains needle as a contiguous substring. -/
def containsStr (hay needle : String) : Prop :=
  ∃ pre post, hay = pre ++ (needle ++ post)

/-- The two strings p, q occur adjacently (in that order) in the list: the
shape of a two-token command-line option such as the -pix_fmt nv12 override. -/
def adjacentPair (p q : String) : List String → Prop
  | a :: b :: t => (a = p ∧ b = q) ∨ adjacentPair p q (b :: t)
  | _ => False

/-- The probe succeeded and produced a property record. -/
def exceptIsOk {ε α : Type} : Except ε α → Bool
  | Except.ok _ => true
  | Except.error _ => false

/-- The conversion let an exception escape to the caller. -/
def wasRaised : ConvertResult → Bool
  | ConvertResult.raisedOSError _ => true
  | _ => false

/-- The conversion printed an error message (the reported-error state). -/
def wasReported : ConvertResult → Bool
  | ConvertResult.reportedError _ => true
  | _ => false

/-- The success test of line 40 of src/main.py on a frame-rate string: it
splits into exactly two pieces at '/' and both pieces parse with int(). -/
def fracShape (s : String) : Bool :=
  match pySplit s '/' with
  | [a, b] => (pyInt? a).isSome && (pyInt? b).isSome
  | _ => false

/-- A frame-rate field value that makes line 40 of src/main.py raise: either
not a string (AttributeError) or a string not of the two-integer num/den
form (ValueError). -/
def badFrameRateVal (v : Json) : Prop :=
  match v with
  | Json.str s => fracShape s = false
  | _ => True

/-- A ffprobe stream object with every field line 40-71 of src/main.py needs,
25 fps, used as the concrete probe payload of several witnesses. -/
def streamA : List (String × Json) :=
  [("codec_name", Json.str "h264"),
   ("level", Json.num 40),
   ("profile", Json.str "High"),
   ("width", Json.num 1920),
   ("height", Json.num 1080),
   ("bit_rate", Json.str "5000000"),
   ("r_frame_rate", Json.str "25/1"),
   ("display_aspect_ratio", Json.str "16:9"),
   ("field_order", Json.str "progressive")]

/-- Valid probe JSON holding streamA as its only stream. -/
def infoA : Json := Json.obj [("streams", Json.arr [Json.obj streamA])]

/-- An NTSC-rate, top-field-first stream: r_frame_rate 30000/1001 and
field_order tt, all required fields present. -/
def streamNtsc : List (String × Json) :=
  [("codec_name", Json.str "h264"),
   ("level", Json.num 40),
   ("profile", Json.str "High"),
   ("width", Json.num 1920),
   ("height", Json.num 1080),
   ("bit_rate", Json.str "5000000"),
   ("r_frame_rate", Json.str "30000/1001"),
   ("display_aspect_ratio", Json.str "16:9"),
   ("field_order", Json.str "tt")]

/-- Valid probe JSON holding streamNtsc as its only stream. -/
def infoNtsc : Json := Json.obj [("streams", Json.arr [Json.obj streamNtsc])]

/-- The record get_video_properties derives from streamNtsc.  The frame rate
is the binary64 double nearest 30000/1001: 8435813487831848 * 2^(-48), i.e.
1054476685978981/35184372088832 in lowest terms, not the exact quotient. -/
def propsNtsc : VideoProperties :=
  { format_name := Json.str "h264"
    format_level := Json.num 40
    codec_name := Json.str "h264"
    format_profile := Json.str "High"
    width := 1920
    height := 1080
    bit_rate := 5000000
    frame_rate := dyadicToQ 8435813487831848 (-48)
    display_aspect_ratio := partsToQ (16, 1) / partsToQ (9, 1)
    color_space := Json.str ""
    chroma_subsampling := Json.str ""
    bit_depth := 8
    scan_type := "interlaced"
    scan_order := "TFF"
    gop_m := 0
    gop_n := 0 }

theorem exceptIsOk_ne_error {ε α : Type} (x : Except ε α) (e : ε)
    (h : exceptIsOk x = true) : x ≠ Except.error e := by
  cases x with
  | ok a => intro hc; cases hc
  | error f => simp [exceptIsOk] at h

theorem noProbe_bind {α β : Type} {x : Except VQError α} {f : α → Except VQError β}
    (hx : x ≠ Except.error VQError.probeError)
    (hf : ∀ a, f a ≠ Except.error VQError.probeError) :
    x >>= f ≠ Except.error VQError.probeError := by
  cases x with
  | error e => simpa [Bind.bind, Except.bind] using hx
  | ok a => simpa [Bind.bind, Except.bind] using hf a

theorem noProbe_map {α β : Type} {f : α → β} {x : Except VQError α}
    (hx : x ≠ Except.error VQError.probeError) :
    Except.map f x ≠ Except.error VQError.probeError := by
  cases x with
  | error e => simpa [Except.map] using hx
  | ok a => simp [Except.map]

theorem parseFrameRateField_noProbe (kvs : List (String × Json)) :
    parseFrameRateField kvs ≠ Except.error VQError.probeError := by
  unfold parseFrameRateField
  repeat' split
  all_goals simp

theorem pyDiv_noProbe (n d : Int) : pyDiv n d ≠ Except.error VQError.probeError := by
  unfold pyDiv
  repeat' split
  all_goals simp

theorem parseDarField_noProbe (kvs : List (String × Json)) :
    parseDarField kvs ≠ Except.error VQError.probeError := by
  unfold parseDarField
  repeat' split
  all_goals simp

theorem extractGop_noProbe (kvs : List (String × Json)) :
    extractGop kvs ≠ Except.error VQError.probeError := by
  unfold extractGop
  repeat' split
  all_goals simp

theorem reqJson_noProbe (kvs : List (String × Json)) (k : String) :
    reqJson kvs k ≠ Except.error VQError.probeError := by
  unfold reqJson
  split <;> simp

theorem pyIntOfJson_noProbe (v : Json) :
    pyIntOfJson v ≠ Except.error VQError.probeError := by
  unfold pyIntOfJson
  repeat' split
  all_goals simp

theorem fallibleFields_noProbe (kvs : List (String × Json)) :
    fallibleFields kvs ≠ Except.error VQError.probeError := by
  unfold fallibleFields
  refine noProbe_bind (parseDarField_noProbe kvs) (fun a => ?_)
  refine noProbe_bind (extractGop_noProbe kvs) (fun b => ?_)
  refine noProbe_bind (reqJson_noProbe kvs "codec_name") (fun c => ?_)
  refine noProbe_bind (reqJson_noProbe kvs "level") (fun d => ?_)
  refine noProbe_bind (reqJson_noProbe kvs "width") (fun e => ?_)
  refine noProbe_bind (pyIntOfJson_noProbe e) (fun w => ?_)
  refine noProbe_bind (reqJson_noProbe kvs "height") (fun g => ?_)
  refine noProbe_bind (pyIntOfJson_noProbe g) (fun hh => ?_)
  refine noProbe_bind (pyIntOfJson_noProbe _) (fun br => ?_)
  refine noProbe_bind (pyIntOfJson_noProbe _) (fun bd => ?_)
  simp

theorem getStreamProps_noProbe (kvs : List (String × Json)) :
    getStreamProps kvs ≠ Except.error VQError.probeError := by
  unfold getStreamProps
  refine noProbe_bind (parseFrameRateField_noProbe kvs) (fun nd => ?_)
  refine noProbe_bind (pyDiv_noProbe nd.1 nd.2) (fun fr => ?_)
  exact noProbe_map (fallibleFields_noProbe kvs)

theorem selectStream_noProbe (info : Json) :
    selectStream info ≠ Except.error VQError.probeError := by
  unfold selectStream
  repeat' split
  all_goals simp

theorem get_video_properties_noProbe (info : Json) :
    get_video_properties info ≠ Except.error VQError.probeError := by
  unfold get_video_properties
  refine noProbe_bind (selectStream_noProbe info) (fun s => ?_)
  cases s with
  | obj kvs => exact getStreamProps_noProbe kvs
  | null => simp
  | bool b => simp
  | num n => simp
  | str t => simp
  | arr xs => simp

theorem getStreamProps_ok_fields {kvs : List (String × Json)} {props : VideoProperties}
    (h : getStreamProps kvs = Except.ok props) :
    props.scan_type = scanTypeOf kvs ∧ props.scan_order = scanOrderOf kvs ∧
      ∃ nd, parseFrameRateField kvs = Except.ok nd ∧
        pyDiv nd.1 nd.2 = Except.ok props.frame_rate := by
  unfold getStreamProps at h
  cases h1 : parseFrameRateField kvs with
  | error e => rw [h1] at h; simp [Bind.bind, Except.bind] at h
  | ok nd =>
      rw [h1] at h
      simp only [Bind.bind, Except.bind] at h
      cases h2 : pyDiv nd.1 nd.2 with
      | error e => rw [h2] at h; simp at h
      | ok fr =>
          rw [h2] at h
          cases h3 : fallibleFields kvs with
          | error e => rw [h3] at h; simp [Except.map] at h
          | ok x =>
              rw [h3] at h
              simp only [Except.map, Except.ok.injEq] at h
              subst h
              exact ⟨rfl, rfl, nd, rfl, h2⟩

theorem jIsStr_iff (v : Json) (s : String) : jIsStr v s = true ↔ v = Json.str s := by
  cases v <;> simp [jIsStr]

theorem scanOrderOf_eq (kvs : List (String × Json)) (v : Json)
    (h : jLookup kvs "field_order" = some v) :
    scanOrderOf kvs =
      (if jIsStr v "tt" then "TFF" else if jIsStr v "bb" then "BFF" else "Progressive") := by
  simp [scanOrderOf, jGetD, h]

theorem scanTypeOf_eq (kvs : List (String × Json)) (v : Json)
    (h : jLookup kvs "field_order" = some v) :
    scanTypeOf kvs = (if jIsStr v "progressive" then "progressive" else "interlaced") := by
  simp [scanTypeOf, jGetD, h]

theorem scanOrderOf_none (kvs : List (String × Json))
    (h : jLookup kvs "field_order" = none) : scanOrderOf kvs = "Progressive" := by
  simp [scanOrderOf, jGetD, h, jIsStr]

theorem jIsStr_eq_false (v : Json) (s : String) (h : v ≠ Json.str s) :
    jIsStr v s = false := by
  cases hb : jIsStr v s with
  | false => rfl
  | true => exact absurd ((jIsStr_iff v s).mp hb) h

theorem scanOrder_forces_interlaced (kvs : List (String × Json))
    (h : scanOrderOf kvs = "TFF" ∨ scanOrderOf kvs = "BFF") :
    scanTypeOf kvs = "interlaced" := by
  cases hl : jLookup kvs "field_order" with
  | none =>
      rw [scanOrderOf_none kvs hl] at h
      rcases h with h | h <;> simp at h
  | some v =>
      rw [scanOrderOf_eq kvs v hl] at h
      rw [scanTypeOf_eq kvs v hl]
      cases h1 : jIsStr v "tt" with
      | true =>
          have hv : v = Json.str "tt" := (jIsStr_iff v "tt").mp h1
          subst hv
          simp [jIsStr]
      | false =>
          rw [h1] at h
          cases h2 : jIsStr v "bb" with
          | true =>
              have hv : v = Json.str "bb" := (jIsStr_iff v "bb").mp h2
              subst hv
              simp [jIsStr]
          | false =>
              rw [h2] at h
              rcases h with h | h <;> simp at h

/-- C1: for every probe output whose parsed JSON object has an absent
streams key or an empty streams array, inspection fails with
MissingStreamError and returns no property record. -/
theorem c1_missing_or_empty_streams (ec : Int) (se : String)
    (kvs : List (String × Json))
    (h : jLookup kvs "streams" = none ∨ jLookup kvs "streams" = some (Json.arr [])) :
    inspect { exitCode := ec, stdout := some (Json.obj kvs), stderr := se } =
      Except.error VQError.missingStreamError := by
  rcases h with h | h <;>
    simp [inspect, get_video_properties, selectStream, h, Bind.bind, Except.bind]

/-- Witness for C1 at the empty probe object (streams key absent). -/
theorem c1_witness :
    inspect { exitCode := 0, stdout := some (Json.obj []), stderr := "" } =
      Except.error VQError.missingStreamError :=
  c1_missing_or_empty_streams 0 "" [] (Or.inl rfl)

/-- C2 counterexample: a probe run that exits with code 1 but prints valid
stream JSON on stdout does not fail with ProbeError; the source never
examines the exit code, so inspection succeeds. -/
theorem c2_counterexample :
    exceptIsOk (inspect { exitCode := 1, stdout := some infoA, stderr := "" }) = true ∧
    inspect { exitCode := 1, stdout := some infoA, stderr := "" } ≠
      Except.error VQError.probeError :=
  ⟨rfl, exceptIsOk_ne_error _ _ rfl⟩

/-- C2 amended: the property extractor fails with ProbeError exactly when the
captured standard output is not valid JSON; the exit code of the probing
process is never consulted. -/
theorem c2_probeError_iff_unparsable (r : ProbeResult) :
    inspect r = Except.error VQError.probeError ↔ r.stdout = none := by
  cases r with
  | mk ec so se =>
      cases so with
      | none => simp [inspect]
      | some j =>
          simp only [inspect]
          constructor
          · intro h; exact absurd h (get_video_properties_noProbe j)
          · intro h; cases h

/-- C3 counterexample: a failure while spawning the transcoding process (the
OSError a missing ffmpeg binary raises) is not caught by the except clause of
lines 122-123, which lists only RuntimeError and CalledProcessError: the
exception is raised to the caller instead of being reported as a message. -/
theorem c3_counterexample :
    wasRaised (runConvert (SpawnOutcome.spawnFailure "FileNotFoundError: ffmpeg")) = true ∧
    wasReported (runConvert (SpawnOutcome.spawnFailure "FileNotFoundError: ffmpeg")) = false :=
  ⟨rfl, rfl⟩

/-- C3 amended: a non-zero exit of the transcoding process is mapped to a
ConversionError (RuntimeError carrying the captured stderr), caught at the
boundary of the conversion operation and reported as a message; but a failure
while spawning the process (process not found, permission error) is raised to
the caller uncaught. -/
theorem c3_nonzero_reported_spawn_raised (ec : Int) (so se d : String) :
    (ec ≠ 0 → runConvert (SpawnOutcome.ran ec so se) =
        ConvertResult.reportedError
          ("Error during conversion: " ++ ("ffmpeg conversion failed: " ++ se))) ∧
    runConvert (SpawnOutcome.spawnFailure d) = ConvertResult.raisedOSError d := by
  constructor
  · intro h; simp [runConvert, h]
  · rfl

/-- Witness for the amended C3 at exit code 1. -/
theorem c3_witness :
    runConvert (SpawnOutcome.ran 1 "" "boom") =
      ConvertResult.reportedError "Error during conversion: ffmpeg conversion failed: boom" :=
  (c3_nonzero_reported_spawn_raised 1 "" "boom" "x").1 (by decide)

/-- C4: for every selected stream whose r_frame_rate field is absent, not a
string, or a string not of the num/den form with two integers, inspection
fails with MalformedFieldError. -/
theorem c4_bad_frame_rate (kvs : List (String × Json))
    (h : jLookup kvs "r_frame_rate" = none ∨
         ∃ v, jLookup kvs "r_frame_rate" = some v ∧ badFrameRateVal v) :
    getStreamProps kvs = Except.error VQError.malformedFieldError := by
  have hp : parseFrameRateField kvs = Except.error VQError.malformedFieldError := by
    rcases h with h | ⟨v, hv, hbad⟩
    · unfold parseFrameRateField; rw [h]
    · unfold parseFrameRateField
      rw [hv]
      cases v with
      | str s =>
          have hb : fracShape s = false := hbad
          unfold fracShape at hb
          cases hsp : pySplit s '/' with
          | nil => simp [hsp]
          | cons a t =>
              cases t with
              | nil => simp [hsp]
              | cons b t2 =>
                  cases t2 with
                  | nil =>
                      rw [hsp] at hb
                      simp only [hsp]
                      cases hA : pyInt? a with
                      | none => simp [hA]
                      | some n =>
                          cases hB : pyInt? b with
                          | none => simp [hA, hB]
                          | some m => simp [hA, hB] at hb
                  | cons c t3 => simp [hsp]
      | null => rfl
      | bool b => rfl
      | num n => rfl
      | arr xs => rfl
      | obj o => rfl
  unfold getStreamProps
  rw [hp]
  simp [Bind.bind, Except.bind]

/-- Witness for C4: an absent frame-rate field and a one-piece frame-rate
string both fail with MalformedFieldError. -/
theorem c4_witness :
    getStreamProps [] = Except.error VQError.malformedFieldError ∧
    getStreamProps [("r_frame_rate", Json.str "30")] =
      Except.error VQError.malformedFieldError :=
  ⟨c4_bad_frame_rate [] (Or.inl rfl),
   c4_bad_frame_rate [("r_frame_rate", Json.str "30")]
     (Or.inr ⟨Json.str "30", rfl, rfl⟩)⟩

/-- C5: a conversion whose external process exits with code 1 and stderr
"invalid codec" yields a reported ConversionError whose message contains
"invalid codec". -/
theorem c5_invalid_codec_reported (runProcess : List String → SpawnOutcome)
    (ip op vc res br ac so : String)
    (h : runProcess (convertCommand ip op vc res br ac) =
         SpawnOutcome.ran 1 so "invalid codec") :
    ∃ m, convert_video_to_requirements runProcess ip op vc res br ac =
        ConvertResult.reportedError m ∧ containsStr m "invalid codec" := by
  refine ⟨"Error during conversion: ffmpeg conversion failed: invalid codec", ?_, ?_⟩
  · unfold convert_video_to_requirements
    rw [h]
    rfl
  · exact ⟨"Error during conversion: ffmpeg conversion failed: ", "", rfl⟩

/-- Witness for C5 with a concrete process model. -/
theorem c5_witness :
    ∃ m, convert_video_to_requirements (fun _ => SpawnOutcome.ran 1 "" "invalid codec")
        "in.mov" "output.mxf" "h264_videotoolbox" "1920x1080" "50M" "pcm_s16le" =
        ConvertResult.reportedError m ∧ containsStr m "invalid codec" :=
  c5_invalid_codec_reported (fun _ => SpawnOutcome.ran 1 "" "invalid codec")
    "in.mov" "output.mxf" "h264_videotoolbox" "1920x1080" "50M" "pcm_s16le" "" rfl

/-- C6: the built ffmpeg command contains the adjacent pair -pix_fmt nv12 if
and only if the requested video codec is exactly h264_videotoolbox. -/
theorem c6_pix_fmt_iff_default_codec (ip op vc res br ac : String) :
    adjacentPair "-pix_fmt" "nv12" (convertCommand ip op vc res br ac) ↔
      vc = "h264_videotoolbox" := by
  by_cases hv : vc = "h264_videotoolbox"
  · subst hv
    unfold convertCommand
    rw [if_pos rfl]
    simp [adjacentPair]
  · unfold convertCommand
    rw [if_neg hv]
    simp [adjacentPair, hv]

/-- C7: with a field_order value present in the selected stream, the derived
scan order is TFF exactly for the string "tt", BFF exactly for "bb", and
Progressive otherwise; the derived scan type is interlaced exactly when the
value differs from the string "progressive". -/
theorem c7_scan_derivation (kvs : List (String × Json)) (v : Json)
    (h : jLookup kvs "field_order" = some v) :
    (scanOrderOf kvs = "TFF" ↔ v = Json.str "tt") ∧
    (scanOrderOf kvs = "BFF" ↔ v = Json.str "bb") ∧
    ((v ≠ Json.str "tt" ∧ v ≠ Json.str "bb") → scanOrderOf kvs = "Progressive") ∧
    (scanTypeOf kvs = "interlaced" ↔ v ≠ Json.str "progressive") := by
  rw [scanOrderOf_eq kvs v h, scanTypeOf_eq kvs v h]
  by_cases h1 : v = Json.str "tt"
  · subst h1; simp [jIsStr]
  · by_cases h2 : v = Json.str "bb"
    · subst h2; simp [jIsStr]
    · by_cases h3 : v = Json.str "progressive"
      · subst h3; simp [jIsStr]
      · simp [jIsStr_eq_false v "tt" h1, jIsStr_eq_false v "bb" h2,
              jIsStr_eq_false v "progressive" h3, h1, h2, h3]

/-- Witness for C7 at the stream with field_order tt. -/
theorem c7_witness :
    scanOrderOf [("field_order", Json.str "tt")] = "TFF" ∧
    scanTypeOf [("field_order", Json.str "tt")] = "interlaced" := by
  have h := c7_scan_derivation [("field_order", Json.str "tt")] (Json.str "tt") rfl
  refine ⟨h.1.mpr rfl, h.2.2.2.mpr ?_⟩
  intro hc
  injection hc with hs
  exact absurd hs (by decide)

/-- C8 counterexample: at the concrete NTSC stream (r_frame_rate the string
30000/1001), line 41's float division derives the binary64 double nearest the
quotient, which differs from the exact rational 30000/1001: the derived frame
rate is a value rounded to 53-bit float precision. -/
theorem c8_counterexample :
    getStreamProps streamNtsc = Except.ok propsNtsc ∧
    propsNtsc.frame_rate ≠ (30000 : ℚ) / 1001 := by
  constructor
  · rfl
  · have ht : (48 : Int).toNat = 48 := rfl
    norm_num [propsNtsc, dyadicToQ, ht]

/-- C8 amended: a stream whose r_frame_rate field is the string 30000/1001
derives the frame rate 1054476685978981/35184372088832, the IEEE-754 binary64
double nearest the quotient 30000/1001: the correctly rounded float quotient,
with no further (decimal) rounding applied by the code, but not the exact
rational quotient. -/
theorem c8_ntsc_rate_nearest_double (kvs : List (String × Json))
    (props : VideoProperties)
    (hfr : jLookup kvs "r_frame_rate" = some (Json.str "30000/1001"))
    (h : getStreamProps kvs = Except.ok props) :
    props.frame_rate = (1054476685978981 : ℚ) / 35184372088832 := by
  obtain ⟨-, -, nd, hnd, hdiv⟩ := getStreamProps_ok_fields h
  have hp : parseFrameRateField kvs = Except.ok ((30000 : Int), (1001 : Int)) := by
    unfold parseFrameRateField
    rw [hfr]
    rfl
  rw [hp] at hnd
  injection hnd with hnd'
  subst hnd'
  have hdiv' : pyDiv 30000 1001 = Except.ok props.frame_rate := hdiv
  have hq : pyDiv 30000 1001 = Except.ok (dyadicToQ 8435813487831848 (-48)) := rfl
  rw [hq] at hdiv'
  injection hdiv' with h2
  rw [← h2]
  have ht : (48 : Int).toNat = 48 := rfl
  norm_num [dyadicToQ, ht]

/-- Witness for the amended C8 at the concrete NTSC stream. -/
theorem c8_witness : propsNtsc.frame_rate = (1054476685978981 : ℚ) / 35184372088832 :=
  c8_ntsc_rate_nearest_double streamNtsc propsNtsc rfl rfl

/-- C9: a stream with no tags object, or a tags object with no gop_size
entry, derives the GOP structure (0, 0) silently, with no reported error. -/
theorem c9_gop_default (kvs : List (String × Json))
    (h : jLookup kvs "tags" = none ∨
         ∃ tags, jLookup kvs "tags" = some (Json.obj tags) ∧
           jLookup tags "gop_size" = none) :
    extractGop kvs = Except.ok (0, 0) := by
  rcases h with h | ⟨tags, h1, h2⟩
  · simp [extractGop, h]
  · simp [extractGop, h1, h2]

/-- Witness for C9: no tags at all, and a tags object without gop_size. -/
theorem c9_witness :
    extractGop [] = Except.ok (0, 0) ∧
    extractGop [("tags", Json.obj [("language", Json.str "eng")])] = Except.ok (0, 0) :=
  ⟨c9_gop_default [] (Or.inl rfl),
   c9_gop_default [("tags", Json.obj [("language", Json.str "eng")])]
     (Or.inr ⟨[("language", Json.str "eng")], rfl, rfl⟩)⟩

/-- C10: every property record the extractor returns with scan order TFF or
BFF has scan type interlaced. -/
theorem c10_order_implies_interlaced (info : Json) (props : VideoProperties)
    (h : get_video_properties info = Except.ok props)
    (ho : props.scan_order = "TFF" ∨ props.scan_order = "BFF") :
    props.scan_type = "interlaced" := by
  unfold get_video_properties at h
  cases hs : selectStream info with
  | error e => rw [hs] at h; simp [Bind.bind, Except.bind] at h
  | ok s =>
      rw [hs] at h
      simp only [Bind.bind, Except.bind] at h
      cases s with
      | obj kvs =>
          obtain ⟨ht, hoo, -⟩ := getStreamProps_ok_fields h
          rw [ht]
          apply scanOrder_forces_interlaced
          rw [← hoo]
          exact ho
      | null => simp at h
      | bool b => simp at h
      | num n => simp at h
      | str t => simp at h
      | arr xs => simp at h

/-- Witness for C10 at the concrete top-field-first stream. -/
theorem c10_witness : propsNtsc.scan_type = "interlaced" :=
  c10_order_implies_interlaced infoNtsc propsNtsc rfl (Or.inl rfl)
